import Mathlib

/-
Shallow embedding of g27.py: a decoder for 8-byte input frames of a racing
wheel, with a byte-span integer decoder (Bytewurst.int), a value normalizer
(_normalize), a button-code catalog (BUTTON2NAME_DICT / Button.name), a
Message built by slicing the frame, a press/release edge detector
(PressHandler) and the handler dispatch loop of G27.loop.

Python floats are modelled as rationals (every constant appearing in the
source and in the proved facts is exactly representable), Python bytes as
lists of naturals below 256, Python dict.get as an association-list lookup,
and the implicit None returned by a function body that falls through all
branches as Option.none.
-/

/-- Embeds `powergenerator` of g27.py: its i-th yielded value is 256 ** i. -/
def powergenerator (i : ℕ) : ℕ := 256 ^ i

/-- Embeds `Bytewurst.int` of g27.py: `sum(a * b for a, b in zip(self.ints,
powergenerator()))`, where `self.ints` is the list of byte values.  Zipping
with the infinite generator truncates at the length of the byte list, so the
generator is materialised as the first `bs.length` powers of 256. -/
def Bytewurst.int (bs : List ℕ) : ℕ :=
  ((bs.zip ((List.range bs.length).map powergenerator)).map (fun p => p.1 * p.2)).sum

/-- Embeds `_normalize` of g27.py.  The Python function body has three
branches and no final else: for an argument matched by no branch it
implicitly returns None, modelled here as `none`. -/
def _normalize (x : ℕ) : Option ℚ :=
  if 32769 ≤ x ∧ x ≤ 65535 then some (((x : ℚ) - 32769) / 65535)
  else if x = 0 then some (1 / 2)
  else if 0 < x ∧ x ≤ 32767 then some (((x : ℚ) + 32768) / 65535)
  else none

/-- Lowercase hex digit of a value below 16, as produced by `binascii.hexlify`. -/
def hexDigit (n : ℕ) : Char :=
  if n < 10 then Char.ofNat (48 + n) else Char.ofNat (87 + n)

/-- Embeds `hexlify(bs)` of the Python standard library as used in g27.py:
two lowercase hex digits per byte, in byte order. -/
def hexlify (bs : List ℕ) : String :=
  String.mk (bs.flatMap (fun b => [hexDigit (b / 16), hexDigit (b % 16)]))

/-- Embeds `BUTTON2NAME_DICT` of g27.py: the table parsed from the
BUTTON2NAME literal, one (4-hex-digit code, name) pair per line, in file
order. -/
def BUTTON2NAME_DICT : List (String × String) :=
  [("0200", "wheel axis"),
   ("0105", "paddle left"),
   ("0104", "paddle right"),
   ("0107", "wheel button left 1"),
   ("0114", "wheel button left 2"),
   ("0115", "wheel button left 3"),
   ("0106", "wheel button right 1"),
   ("0112", "wheel button right 2"),
   ("0113", "wheel button right 3"),
   ("0201", "clutch"),
   ("0203", "brake"),
   ("0202", "gas"),
   ("0101", "shifter button left"),
   ("0102", "shifter button right"),
   ("0103", "shifter button up"),
   ("0100", "shifter button down"),
   ("0204", "dpad left/right"),
   ("0205", "dpad up/down"),
   ("010b", "shifter button 1"),
   ("0108", "shifter button 2"),
   ("0109", "shifter button 3"),
   ("010a", "shifter button 4"),
   ("010c", "gear 1"),
   ("010d", "gear 2"),
   ("010e", "gear 3"),
   ("010f", "gear 4"),
   ("0110", "gear 5"),
   ("0111", "gear 6"),
   ("0116", "gear R")]

/-- Embeds `Button.name` of g27.py: dict get of self.hex with the f-string
default `UNKNOWN: {self.hex}`.  `self.hex` is the bytes object returned by
hexlify; interpolating a bytes object into an f-string renders its Python
repr, so the default string carries a `b` prefix and single quotes around
the hex digits (the quote character is written as the escape \x27 below). -/
def Button.name (bs : List ℕ) : String :=
  match BUTTON2NAME_DICT.lookup (hexlify bs) with
  | some n => n
  | none => "UNKNOWN: b\x27" ++ hexlify bs ++ "\x27"

/-- Embeds the `Message` object of g27.py: the fields assigned by
`Message.__init__`, each a Python slice of the input bytes (slices truncate
silently when the input is short). -/
structure Message where
  bs : List ℕ
  sequence : List ℕ
  value : List ℕ
  button : List ℕ
  deriving Repr, DecidableEq

/-- Embeds `Message.__init__` of g27.py: `self.sequence = Bytewurst(bs[0:4])`,
`self.value = Value(bs[4:6])`, `self.button = Button(bs[6:8])`.  The
constructor performs no length check and has no failure path, so it is a
total function. -/
def Message.init (bs : List ℕ) : Message :=
  ⟨bs, bs.take 4, (bs.drop 4).take 2, (bs.drop 6).take 2⟩

/-- Embeds the mutable state of a `PressHandler` instance of g27.py together
with its configuration fields as assigned by `PressHandler.__init__`. -/
structure PressHandlerState where
  is_pressed : Bool
  button_name : Option String
  press_value : ℚ
  release_value : ℚ
  deriving Repr, DecidableEq

/-- Embeds `PressHandler.__init__` of g27.py: `is_pressed` starts False, the
arguments are stored, and `assert self.press_value <= self.release_value`
aborts construction when violated (modelled as `none`). -/
def PressHandler.init (button_name : Option String) (press_value release_value : ℚ) :
    Option PressHandlerState :=
  if press_value ≤ release_value then
    some ⟨false, button_name, press_value, release_value⟩
  else none

/-- Result of one `PressHandler.__call__`: the updated handler state and
whether the `on_press` / `on_release` callbacks were invoked during the call. -/
structure CallResult where
  state : PressHandlerState
  pressFired : Bool
  releaseFired : Bool
  deriving Repr, DecidableEq

/-- Embeds `PressHandler.__call__` of g27.py, applied to a message with
button name `msgName` and normalized value `x`.  Mirrors the source exactly:
the filter check returns early when `button_name` is set and differs; the
press comparison is the literal `x < 0.5` of the source (not the stored
`press_value`), and the else branch always ends with `is_pressed = False`. -/
def PressHandler.call (h : PressHandlerState) (msgName : String) (x : ℚ) : CallResult :=
  if h.button_name ≠ none ∧ h.button_name ≠ some msgName then
    ⟨h, false, false⟩
  else if x < 1 / 2 then
    if h.is_pressed = false then
      ⟨⟨true, h.button_name, h.press_value, h.release_value⟩, true, false⟩
    else
      ⟨h, false, false⟩
  else
    if h.is_pressed = true then
      ⟨⟨false, h.button_name, h.press_value, h.release_value⟩, false, true⟩
    else
      ⟨⟨false, h.button_name, h.press_value, h.release_value⟩, false, false⟩

/-- Feeds a list of (button name, normalized value) messages through a
PressHandler in order, returning the final state and the total number of
`on_press` and `on_release` invocations. -/
def PressHandler.run (h : PressHandlerState) : List (String × ℚ) → PressHandlerState × ℕ × ℕ
  | [] => (h, 0, 0)
  | m :: rest =>
    let r := PressHandler.call h m.1 m.2
    let t := PressHandler.run r.state rest
    (t.1, (if r.pressFired then 1 else 0) + t.2.1, (if r.releaseFired then 1 else 0) + t.2.2)

/-- Embeds the handler loop body of `G27.loop` of g27.py
(`for handler in self.handlers: handler(msg)`) starting at registration
index `i`: each handler is invoked in order with the same message; a handler
that raises (modelled as returning `some e`) stops the loop, the exception
propagating to the caller.  The returned list records, in order, the
(registration index, message) of every invocation actually made. -/
def dispatchFrom (i : ℕ) : List (α → Option ε) → α → List (ℕ × α) × Option ε
  | [], _ => ([], none)
  | h :: rest, msg =>
    match h msg with
    | some e => ([(i, msg)], some e)
    | none =>
      let r := dispatchFrom (i + 1) rest msg
      ((i, msg) :: r.1, r.2)

/-- Embeds the dispatch step of `G27.loop` of g27.py over the full handler
list, starting at index 0. -/
def G27.dispatch (handlers : List (α → Option ε)) (msg : α) : List (ℕ × α) × Option ε :=
  dispatchFrom 0 handlers msg

/-- C1 (counterexample): a 7-byte chunk does not fail: Message.__init__
runs no length check, so a Message value is produced, its fields the
(truncated) slices of the chunk. -/
theorem C1_counterexample :
    Message.init [1, 2, 3, 4, 5, 6, 7] =
      ⟨[1, 2, 3, 4, 5, 6, 7], [1, 2, 3, 4], [5, 6], [7]⟩ := by
  decide

/-- C1 (amended): Message construction is total — for a chunk of any length
a Message is produced by slicing, with no FramingError or any other failure
path; for a chunk of length exactly 8 the decode succeeds with full-width
fields (4-byte sequence, 2-byte value, 2-byte button). -/
theorem C1_message_total (bs : List ℕ) :
    (Message.init bs).bs = bs ∧
    (bs.length = 8 →
      (Message.init bs).sequence.length = 4 ∧
      (Message.init bs).value.length = 2 ∧
      (Message.init bs).button.length = 2) := by
  refine ⟨rfl, fun h8 => ?_⟩
  simp [Message.init]
  omega

/-- C1 (witness): the amended statement applied to a concrete 8-byte frame. -/
theorem C1_message_total_witness :
    (Message.init [160, 183, 163, 4, 92, 125, 2, 2]).sequence.length = 4 ∧
    (Message.init [160, 183, 163, 4, 92, 125, 2, 2]).value.length = 2 ∧
    (Message.init [160, 183, 163, 4, 92, 125, 2, 2]).button.length = 2 :=
  (C1_message_total [160, 183, 163, 4, 92, 125, 2, 2]).2 (by decide)

/-- C3 (counterexample): for raw = 32768 the normalizer produces the absent
value (Python None), i.e. it silently falls through every branch rather
than following an explicit error-or-clamp policy. -/
theorem C3_counterexample : _normalize 32768 = none := by decide

/-- C3 (amended): for raw = 32768, _normalize falls through all three
branches and implicitly returns None — no NormalizationGapError is raised
and no clamping to a boundary happens, even though both neighbouring raws
are defined (32767 maps to 1 and 32769 maps to 0). -/
theorem C3_gap_fallthrough :
    _normalize 32768 = none ∧ _normalize 32767 = some 1 ∧ _normalize 32769 = some 0 := by
  refine ⟨by decide, ?_, ?_⟩ <;> norm_num [_normalize]

/-- C4 (counterexample): the sentinel for the unknown code ffff is
"UNKNOWN: b\x27ffff\x27" — the f-string interpolates the bytes object, so
the Python bytes repr with its b prefix and quotes lands in the string —
and not the claimed "UNKNOWN: ffff". -/
theorem C4_counterexample :
    Button.name [255, 255] = "UNKNOWN: b\x27ffff\x27" ∧
    Button.name [255, 255] ≠ "UNKNOWN: ffff" := by
  decide

/-- C4 (amended): lookup returns the catalog-mapped name whenever the
2-byte code is present, never raising; for an absent code it returns the
sentinel "UNKNOWN: " followed by the Python bytes repr of the 4-hex-digit
code; in particular lookup of 0200 gives "wheel axis" and lookup of ffff
gives "UNKNOWN: b\x27ffff\x27". -/
theorem C4_lookup :
    Button.name [2, 0] = "wheel axis" ∧
    Button.name [255, 255] = "UNKNOWN: b\x27ffff\x27" ∧
    ∀ bs n, BUTTON2NAME_DICT.lookup (hexlify bs) = some n → Button.name bs = n := by
  refine ⟨by decide, by decide, fun bs n h => ?_⟩
  simp [Button.name, h]

/-- C4 (witness): the mapped-name case of the amended statement at the
concrete code 0202 (gas). -/
theorem C4_lookup_witness :
    BUTTON2NAME_DICT.lookup (hexlify [2, 2]) = some "gas" ∧ Button.name [2, 2] = "gas" :=
  ⟨by decide, C4_lookup.2.2 [2, 2] "gas" (by decide)⟩

/-- C5: _normalize is the claimed piecewise function — on 32769 ≤ raw ≤
65535 it is (raw − 32769) / 65535, at 0 it is 0.5, on 0 < raw ≤ 32767 it is
(raw + 32768) / 65535 — and hence maps 32769 to 0, 0 to 0.5, 65535 to
32766 / 65535 (≈ 0.499992) and 32767 to 1. -/
theorem C5_normalize_piecewise :
    (∀ x : ℕ, 32769 ≤ x → x ≤ 65535 → _normalize x = some (((x : ℚ) - 32769) / 65535)) ∧
    _normalize 0 = some (1 / 2) ∧
    (∀ x : ℕ, 0 < x → x ≤ 32767 → _normalize x = some (((x : ℚ) + 32768) / 65535)) ∧
    _normalize 32769 = some 0 ∧
    _normalize 65535 = some (32766 / 65535) ∧
    _normalize 32767 = some 1 := by
  refine ⟨fun x h1 h2 => ?_, by norm_num [_normalize], fun x h1 h2 => ?_, ?_, ?_, ?_⟩
  · unfold _normalize
    rw [if_pos ⟨h1, h2⟩]
  · unfold _normalize
    rw [if_neg (by omega), if_neg (by omega), if_pos ⟨h1, h2⟩]
  all_goals norm_num [_normalize]

/-- C5 (witness): the two range branches applied at the concrete raws 40000
and 100. -/
theorem C5_normalize_piecewise_witness :
    _normalize 40000 = some (((40000 : ℚ) - 32769) / 65535) ∧
    _normalize 100 = some (((100 : ℚ) + 32768) / 65535) :=
  ⟨C5_normalize_piecewise.1 40000 (by decide) (by decide),
   C5_normalize_piecewise.2.2.1 100 (by decide) (by decide)⟩

/-- Zipping a byte list with the powers 256 ^ (k + i) and summing the
products computes the shifted little-endian sum. -/
theorem zip_powers_sum (bs : List ℕ) (k : ℕ) :
    ((bs.zip ((List.range bs.length).map (fun i => 256 ^ (k + i)))).map
        (fun p => p.1 * p.2)).sum =
      ∑ i in Finset.range bs.length, bs.getD i 0 * 256 ^ (k + i) := by
  induction bs generalizing k with
  | nil => simp
  | cons b rest ih =>
    have hmap : ((List.range rest.length).map Nat.succ).map (fun i => 256 ^ (k + i)) =
        (List.range rest.length).map (fun i => 256 ^ (k + 1 + i)) := by
      rw [List.map_map]
      refine List.map_congr_left fun i _ => ?_
      have hik : k + Nat.succ i = k + 1 + i := by omega
      simp [Function.comp, hik]
    have hsum : ∑ i in Finset.range (rest.length + 1),
        (b :: rest).getD i 0 * 256 ^ (k + i) =
        (∑ i in Finset.range rest.length, rest.getD i 0 * 256 ^ (k + 1 + i)) + b * 256 ^ k := by
      rw [Finset.sum_range_succ']
      congr 1
      · refine Finset.sum_congr rfl fun i _ => ?_
        have hik : k + (i + 1) = k + 1 + i := by omega
        simp [hik]
    simp only [List.length_cons, List.range_succ_eq_map, List.map_cons, hmap,
      List.zip_cons_cons, List.map_cons, List.sum_cons, hsum, ih (k + 1)]
    ring

/-- C6: for every non-empty byte span, Bytewurst.int equals the
little-endian sum of bytes[i] * 256 ^ i; in particular it maps
[0x01, 0x00, 0x03, 0x0A] to 167968769.  The function is a plain total
function with no error cases. -/
theorem C6_decodeLE (bs : List ℕ) (hne : bs ≠ []) :
    Bytewurst.int bs = ∑ i in Finset.range bs.length, bs.getD i 0 * 256 ^ i ∧
    Bytewurst.int [1, 0, 3, 10] = 167968769 := by
  refine ⟨?_, by decide⟩
  have h := zip_powers_sum bs 0
  simpa [Bytewurst.int, powergenerator] using h

/-- C6 (witness): the little-endian-sum characterisation applied to the
concrete span [0x01, 0x00, 0x03, 0x0A]. -/
theorem C6_decodeLE_witness :
    Bytewurst.int [1, 0, 3, 10] =
      ∑ i in Finset.range ([1, 0, 3, 10] : List ℕ).length,
        ([1, 0, 3, 10] : List ℕ).getD i 0 * 256 ^ i ∧
    Bytewurst.int [1, 0, 3, 10] = 167968769 :=
  C6_decodeLE [1, 0, 3, 10] (by decide)

/-- C7: a PressHandler constructed with thresholds 0.5 / 0.5 and filter
"gas" fires exactly one callback per transition: on [0.6, 0.4, 0.6] on_press
fires exactly once and on_release exactly once, and on [0.6, 0.4, 0.3, 0.6]
on_press fires exactly once despite two consecutive sub-threshold readings. -/
theorem C7_single_fire :
    PressHandler.init (some "gas") (1 / 2) (1 / 2) =
      some ⟨false, some "gas", 1 / 2, 1 / 2⟩ ∧
    (PressHandler.run ⟨false, some "gas", 1 / 2, 1 / 2⟩
        [("gas", 3 / 5), ("gas", 2 / 5), ("gas", 3 / 5)]).2 = (1, 1) ∧
    (PressHandler.run ⟨false, some "gas", 1 / 2, 1 / 2⟩
        [("gas", 3 / 5), ("gas", 2 / 5), ("gas", 3 / 10), ("gas", 3 / 5)]).2 = (1, 1) := by
  refine ⟨by norm_num [PressHandler.init], ?_, ?_⟩ <;>
    norm_num [PressHandler.run, PressHandler.call]

/-- When every handler succeeds on `msg`, the loop starting at index i
invokes each handler exactly once, in order, with the same message, and
returns normally. -/
theorem dispatchFrom_all_ok (handlers : List (α → Option ε)) (msg : α) (i : ℕ)
    (h : ∀ g ∈ handlers, g msg = none) :
    dispatchFrom i handlers msg =
      ((List.range handlers.length).map (fun j => (i + j, msg)), none) := by
  induction handlers generalizing i with
  | nil => simp [dispatchFrom]
  | cons g rest ih =>
    have hg : g msg = none := h g (List.mem_cons_self g rest)
    have hrest : ∀ f ∈ rest, f msg = none := fun f hf => h f (List.mem_cons_of_mem g hf)
    have hmap : ((List.range rest.length).map Nat.succ).map (fun j => (i + j, msg)) =
        (List.range rest.length).map (fun j => (i + 1 + j, msg)) := by
      rw [List.map_map]
      refine List.map_congr_left fun j _ => ?_
      have hij : i + Nat.succ j = i + 1 + j := by omega
      simp [Function.comp, hij]
    simp [dispatchFrom, hg, ih (i + 1) hrest, List.range_succ_eq_map, hmap]

/-- When the handlers before `h` succeed on `msg` and `h` raises `e`, the
loop starting at index i invokes exactly the handlers up to and including
`h`, in order, with the same message, and the exception propagates. -/
theorem dispatchFrom_fail (pre : List (α → Option ε)) (h : α → Option ε)
    (post : List (α → Option ε)) (msg : α) (e : ε) (i : ℕ)
    (hpre : ∀ g ∈ pre, g msg = none) (hh : h msg = some e) :
    dispatchFrom i (pre ++ h :: post) msg =
      ((List.range (pre.length + 1)).map (fun j => (i + j, msg)), some e) := by
  induction pre generalizing i with
  | nil => simp [dispatchFrom, hh, List.range_succ]
  | cons g rest ih =>
    have hg : g msg = none := hpre g (List.mem_cons_self g rest)
    have hrest : ∀ f ∈ rest, f msg = none := fun f hf => hpre f (List.mem_cons_of_mem g hf)
    have hmap : ((List.range (rest.length + 1)).map Nat.succ).map (fun j => (i + j, msg)) =
        (List.range (rest.length + 1)).map (fun j => (i + 1 + j, msg)) := by
      rw [List.map_map]
      refine List.map_congr_left fun j _ => ?_
      have hij : i + Nat.succ j = i + 1 + j := by omega
      simp [Function.comp, hij]
    simp [dispatchFrom, hg, ih (i + 1) hrest, List.range_succ_eq_map, hmap]
    intro a _
    omega

/-- C8: the handler loop of G27.loop invokes each registered handler exactly
once per message, in registration order, passing the same message value to
every one of them; when all handlers succeed the dispatch returns normally,
and when a handler raises, the exception propagates to the caller and the
handlers after it are not invoked in that dispatch. -/
theorem C8_dispatch (handlers : List (α → Option ε)) (msg : α) :
    ((∀ g ∈ handlers, g msg = none) →
      G27.dispatch handlers msg =
        ((List.range handlers.length).map (fun j => (j, msg)), none)) ∧
    (∀ pre h post e, handlers = pre ++ h :: post →
      (∀ g ∈ pre, g msg = none) → h msg = some e →
      G27.dispatch handlers msg =
        ((List.range (pre.length + 1)).map (fun j => (j, msg)), some e)) := by
  constructor
  · intro hall
    have := dispatchFrom_all_ok handlers msg 0 hall
    simpa [G27.dispatch] using this
  · intro pre h post e hsplit hpre hh
    subst hsplit
    have := dispatchFrom_fail pre h post msg e 0 hpre hh
    simpa [G27.dispatch] using this

/-- C8 (witness): the dispatch characterisation applied to two concrete
handler chains over natural-number messages — one all-succeeding, one whose
second handler raises 5 so that its third handler is never invoked. -/
theorem C8_dispatch_witness :
    G27.dispatch ([fun _ => none, fun _ => none] : List (ℕ → Option ℕ)) 7 =
      ((List.range 2).map (fun j => (j, 7)), none) ∧
    G27.dispatch ([fun _ => none, fun _ => some 5, fun _ => none] : List (ℕ → Option ℕ)) 7 =
      ((List.range 2).map (fun j => (j, 7)), some 5) :=
  ⟨(C8_dispatch _ 7).1 (by intro g hg; fin_cases hg <;> rfl),
   (C8_dispatch _ 7).2 [fun _ => none] (fun _ => some 5) [fun _ => none] 5 rfl
     (by intro g hg; fin_cases hg <;> rfl) rfl⟩

/-- C2 (code-bug evaluation): a PressHandler validly constructed with
press_value 0.2 and release_value 0.8 (the assert passes), receiving a
matching message with normalized value 0.4, invokes on_press even though
0.4 is not below the configured press threshold (0.4 is inside the claimed
hysteresis band 0.2 ≤ x < 0.8): PressHandler.__call__ compares against the
literal 0.5 and ignores the stored press_value / release_value fields. -/
theorem C2_thresholds_ignored :
    PressHandler.init (some "gas") (1 / 5) (4 / 5) =
      some ⟨false, some "gas", 1 / 5, 4 / 5⟩ ∧
    ¬ ((2 / 5 : ℚ) < 1 / 5) ∧
    (2 / 5 : ℚ) < 4 / 5 ∧
    (PressHandler.call ⟨false, some "gas", 1 / 5, 4 / 5⟩ "gas" (2 / 5)).pressFired = true ∧
    (PressHandler.call ⟨false, some "gas", 1 / 5, 4 / 5⟩ "gas" (2 / 5)).state.is_pressed
      = true := by
  refine ⟨by norm_num [PressHandler.init], by norm_num, by norm_num, ?_, ?_⟩ <;>
    norm_num [PressHandler.call]

/-- C9: a PressHandler whose button_name filter is set ignores every
message with a different button name: the state is returned unchanged and
neither callback fires. -/
theorem C9_filter_ignores (h : PressHandlerState) (msgName f : String) (x : ℚ)
    (hf : h.button_name = some f) (hne : msgName ≠ f) :
    PressHandler.call h msgName x = ⟨h, false, false⟩ := by
  have h1 : h.button_name ≠ none := by simp [hf]
  have h2 : h.button_name ≠ some msgName := by
    rw [hf]
    exact fun hEq => hne (Option.some_injective String hEq).symm
  simp [PressHandler.call, h1, h2]

/-- C9 (witness): a handler filtering on "gas" in the pressed state is left
unchanged by a "brake" message with a sub-threshold value. -/
theorem C9_filter_ignores_witness :
    PressHandler.call ⟨true, some "gas", 1 / 2, 1 / 2⟩ "brake" (2 / 5) =
      ⟨⟨true, some "gas", 1 / 2, 1 / 2⟩, false, false⟩ :=
  C9_filter_ignores ⟨true, some "gas", 1 / 2, 1 / 2⟩ "brake" "gas" (2 / 5) rfl (by decide)

/-- C10: after PressHandler.__call__ processes any message that passes its
button filter, is_pressed equals (normalized value < 0.5) regardless of the
prior flag: the sub-threshold branch always leaves the flag true and the
else branch always assigns is_pressed = False. -/
theorem C10_post_state (h : PressHandlerState) (msgName : String) (x : ℚ)
    (hpass : h.button_name = none ∨ h.button_name = some msgName) :
    (PressHandler.call h msgName x).state.is_pressed = decide (x < 1 / 2) := by
  have hcond : ¬ (h.button_name ≠ none ∧ h.button_name ≠ some msgName) := by
    rcases hpass with h1 | h1 <;> simp [h1]
  unfold PressHandler.call
  rw [if_neg hcond]
  by_cases hx : x < 1 / 2
  · rw [if_pos hx]
    by_cases hp : h.is_pressed = false
    · rw [if_pos hp]
      exact (decide_eq_true hx).symm
    · rw [if_neg hp]
      simp only [Bool.not_eq_false] at hp
      show h.is_pressed = decide (x < 1 / 2)
      rw [hp]
      exact (decide_eq_true hx).symm
  · rw [if_neg hx]
    by_cases hp : h.is_pressed = true
    · rw [if_pos hp]
      exact (decide_eq_false hx).symm
    · rw [if_neg hp]
      exact (decide_eq_false hx).symm

/-- C10 (witness): an unfiltered handler that was pressed stays pressed on
a 0.4 reading, matching decide (0.4 < 0.5). -/
theorem C10_post_state_witness :
    (PressHandler.call ⟨true, none, 1 / 2, 1 / 2⟩ "gas" (2 / 5)).state.is_pressed =
      decide ((2 / 5 : ℚ) < 1 / 2) :=
  C10_post_state ⟨true, none, 1 / 2, 1 / 2⟩ "gas" (2 / 5) (Or.inl rfl)
